import Mathlib

/-
Verification of the CSV analyzer pipeline against its specification.

The embedding follows the repository's Python sources:
  * `analyzer/utils.py`      — `DataProcessor` (value normalization, payload assembly, validation)
  * `analyzer/database.py`   — `DatabaseManager` (connection lifecycle, queries, type mapping)
  * `analyzer/loader.py`     — `DataLoader` (CSV ingestion)
  * `csv_analyzer/analyzer.py` — `DataAnalyzer` (DESCRIBE / SUMMARIZE orchestration)

The analytical engine (DuckDB) is out of scope per the spec's section 1 and is
modelled as a black box consumed through the section-6 interface: an in-memory
catalog of named tables, a staged CSV resource, and a small set of query shapes
actually issued by this layer.  Machine floats are modelled at rational
precision (the spec treats decimal-to-float rounding as out of scope).
-/

/-- A cell value as it crosses the engine / host boundary.  `vBool`, `vInt`,
`vFloat` model Python `bool`, `int`, `float`; `vDecimal` models
`decimal.Decimal` (arbitrary precision, modelled as a rational); `vObj` models
any other engine-native object, carrying its `str()` representation. -/
inductive Value where
  | vNone
  | vBool (b : Bool)
  | vInt (n : Int)
  | vFloat (q : Rat)
  | vDecimal (q : Rat)
  | vStr (s : String)
  | vObj (s : String)
  deriving Repr, DecidableEq

/-- Python `str()` on a cell value.  Every Python object has a textual
representation; `vObj` carries its own. -/
def strOfValue : Value → String
  | Value.vNone => "None"
  | Value.vBool b => if b then "True" else "False"
  | Value.vInt n => toString n
  | Value.vFloat q => toString q
  | Value.vDecimal q => toString q
  | Value.vStr s => s
  | Value.vObj s => s

/-- `cell is None` check of `_convert_cell_value` (analyzer/utils.py line 52). -/
def isNone_v : Value → Bool
  | Value.vNone => true
  | _ => false

/-- `isinstance(cell, decimal.Decimal)` (analyzer/utils.py line 54). -/
def isDecimal_v : Value → Bool
  | Value.vDecimal _ => true
  | _ => false

/-- `isinstance(cell, (int, float))` (analyzer/utils.py line 57).  In Python,
`bool` is a subclass of `int`, so a boolean satisfies this check. -/
def isNumber_v : Value → Bool
  | Value.vBool _ => true
  | Value.vInt _ => true
  | Value.vFloat _ => true
  | _ => false

/-- `hasattr(cell, '__str__')` (analyzer/utils.py line 59): true for every
Python object. -/
def hasStrAttr (_ : Value) : Bool := true

/-- Python `float(cell)` applied to a `decimal.Decimal`; the spec accepts the
binary64 rounding as out of scope, so the value is kept at rational
precision — only the kind changes. -/
def pyFloatOfValue : Value → Value
  | Value.vDecimal q => Value.vFloat q
  | v => v

/-- `DataProcessor._convert_cell_value` (analyzer/utils.py lines 42-63): the
if/elif chain applied in source order, first match wins. -/
def convert_cell_value (cell : Value) : Value :=
  if isNone_v cell then Value.vNone
  else if isDecimal_v cell then pyFloatOfValue cell
  else if isNumber_v cell then cell
  else if hasStrAttr cell then Value.vStr (strOfValue cell)
  else cell

/-- The boundary-safe table payload built by `process_query_result`. -/
structure Payload where
  data : List (List Value)
  columns : List String
  row_count : Nat
  column_count : Nat
  deriving Repr, DecidableEq

/-- `DataProcessor.process_query_result` (analyzer/utils.py lines 13-40):
convert every cell of every row, then attach the column names and the two
counts (`row_count` from the processed data, `column_count` from the column
list). -/
def process_query_result (result_data : List (List Value)) (columns : List String) : Payload :=
  let processed_data := result_data.map (fun row => row.map convert_cell_value)
  { data := processed_data
    columns := columns
    row_count := processed_data.length
    column_count := columns.length }

/-- `DataProcessor.validate_data_format` (analyzer/utils.py lines 83-104):
false when `data` or `columns` is empty, otherwise every row must have exactly
`len(columns)` cells (the source's early-return loop). -/
def validate_data_format (data : List (List Value)) (columns : List String) : Bool :=
  if data.isEmpty || columns.isEmpty then false
  else
    let expected_cols := columns.length
    data.all (fun row => row.length == expected_cols)

/-- C3 — `_convert_cell_value` is total on the closed cell-value domain (it is
a Lean function, hence never fails), and applies its rules in source order:
a null cell maps to null (never to the empty string or zero), a decimal maps
to a float of the same magnitude, and native ints and floats pass through
unchanged. -/
theorem C3_convert_rules_in_order :
    convert_cell_value Value.vNone = Value.vNone ∧
    (∀ q : Rat, convert_cell_value (Value.vDecimal q) = Value.vFloat q) ∧
    (∀ n : Int, convert_cell_value (Value.vInt n) = Value.vInt n) ∧
    (∀ q : Rat, convert_cell_value (Value.vFloat q) = Value.vFloat q) ∧
    convert_cell_value Value.vNone ≠ Value.vStr "" ∧
    convert_cell_value Value.vNone ≠ Value.vInt 0 :=
  ⟨rfl, fun _ => rfl, fun _ => rfl, fun _ => rfl, by decide, by decide⟩

/-- C4 counterexample — a boolean cell is NOT mapped to its string
representation: `_convert_cell_value(True)` returns `True` itself (Python's
`bool` is a subclass of `int`, so it hits the pass-through-numbers branch),
and `True ≠ str(True) = "True"`. -/
theorem C4_bool_not_stringified :
    convert_cell_value (Value.vBool true) = Value.vBool true ∧
    convert_cell_value (Value.vBool true) ≠ Value.vStr (strOfValue (Value.vBool true)) ∧
    strOfValue (Value.vBool true) = "True" :=
  ⟨rfl, by decide, rfl⟩

/-- C4 amended — a boolean cell is passed through unchanged, because it
satisfies the native int/float check (`bool` being an `int` subclass in the
host language); it never reaches the stringification branch. -/
theorem C4_bool_passthrough (b : Bool) :
    convert_cell_value (Value.vBool b) = Value.vBool b ∧
    isNumber_v (Value.vBool b) = true :=
  ⟨rfl, rfl⟩

/-- C9 — `_convert_cell_value` is idempotent, and every value already in the
normalized domain (null, int, float, string) is a fixed point. -/
theorem C9_convert_idempotent :
    (∀ v : Value, convert_cell_value (convert_cell_value v) = convert_cell_value v) ∧
    (∀ s : String, convert_cell_value (Value.vStr s) = Value.vStr s) ∧
    (∀ n : Int, convert_cell_value (Value.vInt n) = Value.vInt n) ∧
    (∀ q : Rat, convert_cell_value (Value.vFloat q) = Value.vFloat q) ∧
    convert_cell_value Value.vNone = Value.vNone := by
  refine ⟨fun v => ?_, fun _ => rfl, fun _ => rfl, fun _ => rfl, rfl⟩
  cases v <;> rfl

/-- C2 counterexample — `process_query_result` does not reshape rows: on one
row of two cells with a single column name, the payload's `column_count` is 1
but the payload row still has 2 cells, violating "every row in the payload has
length equal to column_count". -/
theorem C2_row_shape_mismatch :
    (process_query_result [[Value.vInt 1, Value.vInt 2]] ["a"]).column_count = 1 ∧
    (process_query_result [[Value.vInt 1, Value.vInt 2]] ["a"]).data.map List.length = [2] ∧
    (2 : Nat) ≠ 1 := by
  refine ⟨rfl, rfl, by decide⟩

/-- C2 amended — the payload's `row_count` equals the number of input rows and
`column_count = len(columns)` (with `len(columns) == column_count` trivially);
each payload row keeps the length of its input row, so the "every payload row
has length `column_count`" invariant holds exactly when every INPUT row
already has `len(columns)` cells. -/
theorem C2_payload_counts (rows : List (List Value)) (cols : List String) :
    (process_query_result rows cols).row_count = rows.length ∧
    (process_query_result rows cols).column_count = cols.length ∧
    (process_query_result rows cols).columns.length = (process_query_result rows cols).column_count ∧
    (process_query_result rows cols).data.map List.length = rows.map List.length ∧
    ((∀ r ∈ rows, r.length = cols.length) →
      ∀ r ∈ (process_query_result rows cols).data,
        r.length = (process_query_result rows cols).column_count) := by
  refine ⟨by simp [process_query_result], rfl, rfl, ?_, ?_⟩
  · simp [process_query_result]
  · intro h r hr
    simp only [process_query_result, List.mem_map] at hr
    obtain ⟨r0, hr0, rfl⟩ := hr
    simpa [process_query_result] using h r0 hr0

/-- C2 witness — the amended payload invariants at a concrete well-shaped
result set. -/
theorem C2_payload_counts_witness :
    (process_query_result [[Value.vNone]] ["a"]).row_count = 1 ∧
    ∀ r ∈ (process_query_result [[Value.vNone]] ["a"]).data,
      r.length = (process_query_result [[Value.vNone]] ["a"]).column_count :=
  ⟨(C2_payload_counts [[Value.vNone]] ["a"]).1,
   (C2_payload_counts [[Value.vNone]] ["a"]).2.2.2.2 (by decide)⟩

/-- C10 — `validate_data_format` returns true exactly when the data and the
column list are non-empty and every row has `len(columns)` cells; in
particular an empty result set (no rows, or no columns) is always invalid. -/
theorem C10_validate_data_format_iff (data : List (List Value)) (columns : List String) :
    (validate_data_format data columns = true ↔
      (data ≠ [] ∧ columns ≠ [] ∧ ∀ row ∈ data, row.length = columns.length)) ∧
    validate_data_format [] columns = false ∧
    validate_data_format data [] = false := by
  refine ⟨?_, rfl, ?_⟩
  · rcases data with _ | ⟨r, rs⟩
    · simp [validate_data_format]
    · rcases columns with _ | ⟨c, cs⟩
      · simp [validate_data_format]
      · simp [validate_data_format, List.all_eq_true]
  · cases data <;> simp [validate_data_format]

/-- C10 witness — `validate_data_format` on a concrete well-formed input and
on the empty-row input. -/
theorem C10_validate_data_format_witness :
    validate_data_format [[Value.vInt 1]] ["a"] = true ∧
    validate_data_format [] ["a"] = false :=
  ⟨(C10_validate_data_format_iff [[Value.vInt 1]] ["a"]).1.mpr
      ⟨by decide, by decide, by decide⟩,
   (C10_validate_data_format_iff [] ["a"]).2.1⟩

/-- An engine-resident table: inferred column schema (name, raw engine type)
and materialized rows. -/
structure Table where
  columns : List (String × String)
  rows : List (List Value)
  deriving Repr, DecidableEq

/-- The query shapes this layer actually sends to the engine (section 6 of the
spec lists exactly these SQL forms). `analysis command name` stands for the
string `"{command} {name}"` built by `_run_analysis_command` and
`get_table_info` (DESCRIBE / SUMMARIZE). -/
inductive EngineQuery where
  | probe (name : String)
  | countRows (name : String)
  | analysis (command : String) (name : String)
  | dropIfExists (name : String)
  | createFromCsv (name : String)
  deriving Repr, DecidableEq

/-- Whether a query is one of the two analysis commands (DESCRIBE/SUMMARIZE
dispatch), as opposed to a probe, count, drop or create. -/
def EngineQuery.isAnalysisQuery : EngineQuery → Bool
  | EngineQuery.analysis _ _ => true
  | _ => false

/-- The state of one session: the `DatabaseManager`'s connection handle
(`conn`, nullable in the source, here a Bool), the engine's table catalog, the
staged CSV resource (`/tmp/data.csv`), and the manager's fixed default table
name (`self.table_name`, set to `"csv_data"` in `__init__` and never
reassigned).  `engineLog` is ghost instrumentation recording every query the
engine actually received; it has no effect on behaviour. -/
structure DBState where
  conn : Bool
  tables : List (String × Table)
  stagedCsv : Option String
  table_name : String
  engineLog : List EngineQuery
  deriving Repr, DecidableEq

/-- The observable session state: everything except the ghost query log. -/
structure ObsState where
  conn : Bool
  tables : List (String × Table)
  stagedCsv : Option String
  table_name : String
  deriving Repr, DecidableEq

/-- Projection from a session state to its observable part. -/
def DBState.obs (st : DBState) : ObsState :=
  { conn := st.conn, tables := st.tables, stagedCsv := st.stagedCsv,
    table_name := st.table_name }

/-- The error taxonomy of the spec's section 7, as raised by the source:
`notConnected` is the `RuntimeError` of `execute_query`, `tableNotFound` the
`ValueError` of `_run_analysis_command`, `engineError` any engine-level
failure. -/
inductive AnalyzerError where
  | notConnected
  | tableNotFound (name : String)
  | engineError (msg : String)
  deriving Repr, DecidableEq

/-- An engine cursor after eager materialization: `fetchall()` rows plus the
column names from `cursor.description`. -/
structure Cursor where
  rows : List (List Value)
  cols : List String
  deriving Repr, DecidableEq

/-- Catalog lookup by table name. -/
def lookupTbl (tables : List (String × Table)) (name : String) : Option Table :=
  (tables.find? (fun p => p.1 == name)).map (fun p => p.2)

/-- Catalog lookup on a session state. -/
def tableLookup (st : DBState) (name : String) : Option Table :=
  lookupTbl st.tables name

/-- Record a query in the ghost engine log. -/
def logQ (st : DBState) (q : EngineQuery) : DBState :=
  { st with engineLog := st.engineLog ++ [q] }

/-- The engine's answer to `DESCRIBE t`: one row per column, in schema order,
with the DuckDB describe columns. -/
def describeCursor (t : Table) : Cursor :=
  { rows := t.columns.map (fun c =>
      [Value.vStr c.1, Value.vStr c.2, Value.vStr "YES",
       Value.vNone, Value.vNone, Value.vNone])
    cols := ["column_name", "column_type", "null", "key", "default", "extra"] }

/-- The engine's answer to `SUMMARIZE t`: one row per column with summary
statistics (modelled shape; the engine is a black box per section 1). -/
def summarizeCursor (t : Table) : Cursor :=
  { rows := t.columns.map (fun c =>
      [Value.vStr c.1, Value.vStr c.2, Value.vNone, Value.vNone,
       Value.vInt t.rows.length])
    cols := ["column_name", "column_type", "min", "max", "count"] }

/-- The engine's `read_csv_auto`, modelled from the section-6 interface (the
engine itself is out of scope): the first non-empty line is the header giving
the column names, every later non-empty line is a data row of textual cells;
empty content is a parse error. -/
def parseCsv (content : String) : Option Table :=
  match (content.splitOn "\n").filter (fun l => l ≠ "") with
  | [] => none
  | header :: rest =>
    some { columns := (header.splitOn ",").map (fun n => (n, "VARCHAR"))
           rows := rest.map (fun line => (line.splitOn ",").map Value.vStr) }

/-- One engine execution step: log the query, then answer it against the
catalog / staged CSV, possibly mutating the catalog (drop, create). -/
def engineRun (st0 : DBState) (q : EngineQuery) : Except AnalyzerError Cursor × DBState :=
  let st := logQ st0 q
  match q with
  | EngineQuery.probe name =>
    match lookupTbl st.tables name with
    | some _ => (Except.ok { rows := [[Value.vInt 1]], cols := ["1"] }, st)
    | none => (Except.error (AnalyzerError.engineError ("Table " ++ name ++ " does not exist")), st)
  | EngineQuery.countRows name =>
    match lookupTbl st.tables name with
    | some t => (Except.ok { rows := [[Value.vInt t.rows.length]], cols := ["count_star()"] }, st)
    | none => (Except.error (AnalyzerError.engineError ("Table " ++ name ++ " does not exist")), st)
  | EngineQuery.analysis command name =>
    match lookupTbl st.tables name with
    | none => (Except.error (AnalyzerError.engineError ("Table " ++ name ++ " does not exist")), st)
    | some t =>
      if command = "DESCRIBE" then (Except.ok (describeCursor t), st)
      else if command = "SUMMARIZE" then (Except.ok (summarizeCursor t), st)
      else (Except.error (AnalyzerError.engineError ("syntax error: " ++ command)), st)
  | EngineQuery.dropIfExists name =>
    (Except.ok { rows := [], cols := [] },
     { st with tables := st.tables.filter (fun p => p.1 != name) })
  | EngineQuery.createFromCsv name =>
    match st.stagedCsv with
    | none => (Except.error (AnalyzerError.engineError "no staged csv"), st)
    | some content =>
      match lookupTbl st.tables name with
      | some _ => (Except.error (AnalyzerError.engineError ("Table " ++ name ++ " already exists")), st)
      | none =>
        match parseCsv content with
        | none => (Except.error (AnalyzerError.engineError "csv parse failure"), st)
        | some t =>
          (Except.ok { rows := [], cols := [] },
           { st with tables := st.tables ++ [(name, t)] })

/-- `DatabaseManager.connect` (analyzer/database.py lines 18-23): create the
in-memory connection if absent, otherwise return it unchanged. -/
def connect (st : DBState) : DBState :=
  if st.conn then st else { st with conn := true }

/-- `DatabaseManager.disconnect` (analyzer/database.py lines 25-30): close and
null the connection if present, else no-op. -/
def disconnect (st : DBState) : DBState :=
  if st.conn then { st with conn := false } else st

/-- `DatabaseManager.execute_query` (analyzer/database.py lines 32-36): raise
`RuntimeError` (`notConnected`) when no connection exists — without touching
the engine — otherwise run the query on the engine. -/
def execute_query (st : DBState) (q : EngineQuery) : Except AnalyzerError Cursor × DBState :=
  if st.conn then engineRun st q
  else (Except.error AnalyzerError.notConnected, st)

/-- `DatabaseManager.table_exists` (analyzer/database.py lines 80-86 and
csv_analyzer/database.py lines 55-61, identical): probe
`SELECT 1 FROM {self.table_name} LIMIT 1` through `execute_query`; the bare
`except:` collapses every failure to false. -/
def table_exists (st : DBState) : Bool × DBState :=
  match execute_query st (EngineQuery.probe st.table_name) with
  | (Except.ok _, st') => (true, st')
  | (Except.error _, st') => (false, st')

/-- `fetchone()[0]` on a count cursor. -/
def fetchCount (cur : Cursor) : Nat :=
  match cur.rows with
  | (Value.vInt n :: _) :: _ => n.toNat
  | _ => 0

/-- `col[0]` as a string, for the `[col[0] for col in columns_info]`
comprehension of `get_table_info`. -/
def col0 (row : List Value) : String :=
  match row with
  | Value.vStr s :: _ => s
  | _ => ""

/-- `DatabaseManager.get_table_info` (csv_analyzer/database.py lines 38-56):
count the default table's rows, then DESCRIBE it for the column names;
exceptions are re-raised unchanged. -/
def get_table_info (st : DBState) : Except AnalyzerError (Nat × List String) × DBState :=
  match execute_query st (EngineQuery.countRows st.table_name) with
  | (Except.error e, st') => (Except.error e, st')
  | (Except.ok cur, st') =>
    match execute_query st' (EngineQuery.analysis "DESCRIBE" st'.table_name) with
    | (Except.error e, st'') => (Except.error e, st'')
    | (Except.ok cur2, st'') => (Except.ok (fetchCount cur, cur2.rows.map col0), st'')

/-- `DataLoader.load_csv_from_content` (analyzer/loader.py lines 16-54):
ensure a connection, stage the CSV text at the shared location, drop any
existing table of that name (failures tolerated), create the table from the
staged CSV via the engine's auto-detecting reader, and return the row count.
Any create/count failure propagates. -/
def load_csv_from_content (st : DBState) (csv_content : String)
    (table_name : String := "csv_data") : Except AnalyzerError Nat × DBState :=
  let st1 := connect st
  let st2 := { st1 with stagedCsv := some csv_content }
  let st3 := (execute_query st2 (EngineQuery.dropIfExists table_name)).2
  match execute_query st3 (EngineQuery.createFromCsv table_name) with
  | (Except.error e, st4) => (Except.error e, st4)
  | (Except.ok _, st4) =>
    match execute_query st4 (EngineQuery.countRows table_name) with
    | (Except.error e, st5) => (Except.error e, st5)
    | (Except.ok cur, st5) => (Except.ok (fetchCount cur), st5)

/-- The payload returned by `_run_analysis_command`: the processed query
result plus the command metadata merged in by `processed_result.update`. -/
structure AnalysisResult where
  data : List (List Value)
  columns : List String
  row_count : Nat
  column_count : Nat
  command : String
  table_name : String
  source_table_rows : Nat
  deriving Repr, DecidableEq

/-- `DataAnalyzer._run_analysis_command` (csv_analyzer/analyzer.py lines
42-91): first validate existence via `self.db_manager.table_exists()` — note
the source passes NO argument, so the probe targets the manager's default
`table_name`, not the `table_name` parameter — raising `ValueError`
(`tableNotFound`) on failure; then fetch `get_table_info`, execute
`"{command} {table_name}"`, and process the cursor into the payload with
command metadata. -/
def run_analysis_command (command : String) (table_name : String) (st : DBState) :
    Except AnalyzerError AnalysisResult × DBState :=
  match table_exists st with
  | (false, st1) => (Except.error (AnalyzerError.tableNotFound table_name), st1)
  | (true, st1) =>
    match get_table_info st1 with
    | (Except.error e, st2) => (Except.error e, st2)
    | (Except.ok (row_count, _), st2) =>
      match execute_query st2 (EngineQuery.analysis command table_name) with
      | (Except.error e, st3) => (Except.error e, st3)
      | (Except.ok cur, st3) =>
        let p := process_query_result cur.rows cur.cols
        (Except.ok
          { data := p.data, columns := p.columns, row_count := p.row_count,
            column_count := p.column_count, command := command,
            table_name := table_name, source_table_rows := row_count }, st3)

/-- `DataAnalyzer.describe` (csv_analyzer/analyzer.py lines 18-28). -/
def describe (st : DBState) (table_name : String := "csv_data") :
    Except AnalyzerError AnalysisResult × DBState :=
  run_analysis_command "DESCRIBE" table_name st

/-- `DataAnalyzer.summarize` (csv_analyzer/analyzer.py lines 30-40). -/
def summarize (st : DBState) (table_name : String := "csv_data") :
    Except AnalyzerError AnalysisResult × DBState :=
  run_analysis_command "SUMMARIZE" table_name st

/-- The state right after `DatabaseManager.__init__`: no connection, empty
engine, default table name `"csv_data"`. -/
def initState : DBState :=
  { conn := false, tables := [], stagedCsv := none, table_name := "csv_data",
    engineLog := [] }

/-- `Except.isOk` spelled out for the probe result. -/
def isOkE (e : Except AnalyzerError Cursor) : Bool :=
  match e with
  | Except.ok _ => true
  | Except.error _ => false

/-- C6 — `table_exists` returns true exactly when the probe query (as issued
through `execute_query`, connection check included) succeeds; every failure
mode collapses to false, in particular a missing connection and a missing
table.  As a Lean function it is total: no exception escapes. -/
theorem C6_table_exists_broad_catch (st : DBState) :
    ((table_exists st).1 = isOkE (execute_query st (EngineQuery.probe st.table_name)).1) ∧
    (st.conn = false → (table_exists st).1 = false) ∧
    (tableLookup st st.table_name = none → (table_exists st).1 = false) := by
  refine ⟨?_, ?_, ?_⟩
  · unfold table_exists
    rcases h : execute_query st (EngineQuery.probe st.table_name) with ⟨r, st'⟩
    cases r <;> simp [isOkE, h]
  · intro h
    simp [table_exists, execute_query, h]
  · intro h
    cases hc : st.conn
    · simp [table_exists, execute_query, hc]
    · simp only [tableLookup] at h
      simp [table_exists, execute_query, engineRun, logQ, hc, h]

/-- C6 witness — in the initial state (no connection, no table) the probe
fails and `table_exists` reports false. -/
theorem C6_table_exists_witness :
    (table_exists initState).1 = false ∧
    (table_exists initState).1 =
      isOkE (execute_query initState (EngineQuery.probe initState.table_name)).1 :=
  ⟨(C6_table_exists_broad_catch initState).2.1 rfl,
   (C6_table_exists_broad_catch initState).1⟩

/-- C7 — `execute_query` with no live connection (fresh manager, a state with
`conn` absent, or any state after `disconnect`) fails with `notConnected` and
leaves the session state — including the ghost engine log — untouched: the
engine is never reached. -/
theorem C7_execute_query_requires_connection :
    (∀ (st : DBState) (q : EngineQuery), st.conn = false →
      (execute_query st q).1 = Except.error AnalyzerError.notConnected ∧
      (execute_query st q).2 = st) ∧
    (∀ (st : DBState) (q : EngineQuery),
      (execute_query (disconnect st) q).1 = Except.error AnalyzerError.notConnected) ∧
    (∀ q : EngineQuery,
      (execute_query initState q).1 = Except.error AnalyzerError.notConnected) := by
  refine ⟨fun st q h => ?_, fun st q => ?_, fun q => ?_⟩
  · simp [execute_query, h]
  · cases hc : st.conn <;> simp [disconnect, execute_query, hc]
  · simp [execute_query, initState]

/-- C7 witness — querying the fresh initial state fails with `notConnected`
and changes nothing. -/
theorem C7_execute_query_witness :
    (execute_query initState (EngineQuery.probe "csv_data")).1 =
      Except.error AnalyzerError.notConnected ∧
    (execute_query initState (EngineQuery.probe "csv_data")).2 = initState :=
  C7_execute_query_requires_connection.1 initState (EngineQuery.probe "csv_data") rfl

/-- `needle` starts the list `hay` (helper for Python's `in` on strings). -/
def leadsWith : List Char → List Char → Bool
  | [], _ => true
  | _ :: _, [] => false
  | c :: cs, d :: ds => c == d && leadsWith cs ds

/-- `needle` occurs contiguously somewhere in the list (helper for Python's
`in` on strings). -/
def occursIn (needle : List Char) : List Char → Bool
  | [] => needle.isEmpty
  | c :: rest => leadsWith needle (c :: rest) || occursIn needle rest

/-- Python's `needle in haystack` substring test. -/
def containsSub (haystack needle : String) : Bool :=
  occursIn needle.toList haystack.toList

/-- The DuckDB-type to frontend-kind mapping of
`DatabaseManager.get_table_info` (analyzer/database.py lines 50-61): the
if/elif chain over substring membership, defaulting to `string`. -/
def frontend_type_of (col_type : String) : String :=
  if containsSub col_type "VARCHAR" || containsSub col_type "TEXT" then "string"
  else if containsSub col_type "INTEGER" || containsSub col_type "BIGINT" ||
          containsSub col_type "DOUBLE" || containsSub col_type "FLOAT" then "number"
  else if containsSub col_type "DATE" || containsSub col_type "TIMESTAMP" then "date"
  else if containsSub col_type "BOOLEAN" then "boolean"
  else "string"

/-- The column descriptor assembled by analyzer/database.py lines 63-68. -/
structure ColumnDetail where
  name : String
  type : String
  raw_type : String
  description : String
  deriving Repr, DecidableEq

/-- The `column_details` list of `DatabaseManager.get_table_info`
(analyzer/database.py lines 47-68), built from the DESCRIBE schema pairs. -/
def column_details_of (columns_info : List (String × String)) : List ColumnDetail :=
  columns_info.map (fun c =>
    { name := c.1, type := frontend_type_of c.2, raw_type := c.2,
      description := (frontend_type_of c.2).capitalize ++ " 类型的 " ++ c.1 ++ " 字段" })

/-- C8 — the engine-type to semantic-kind mapping is a total function (never
fails) landing in the four kinds `{string, number, date, boolean}`, and any
type string containing none of the recognized keywords falls back to
`string`. -/
theorem C8_frontend_type_total (t : String) :
    (frontend_type_of t = "string" ∨ frontend_type_of t = "number" ∨
     frontend_type_of t = "date" ∨ frontend_type_of t = "boolean") ∧
    (containsSub t "VARCHAR" = false → containsSub t "TEXT" = false →
     containsSub t "INTEGER" = false → containsSub t "BIGINT" = false →
     containsSub t "DOUBLE" = false → containsSub t "FLOAT" = false →
     containsSub t "DATE" = false → containsSub t "TIMESTAMP" = false →
     containsSub t "BOOLEAN" = false →
     frontend_type_of t = "string") := by
  constructor
  · unfold frontend_type_of
    split_ifs <;> simp
  · intro h1 h2 h3 h4 h5 h6 h7 h8 h9
    simp [frontend_type_of, h1, h2, h3, h4, h5, h6, h7, h8, h9]

/-- C8 witness — an unrecognized engine type (`BLOB`) maps to `string`. -/
theorem C8_frontend_type_witness : frontend_type_of "BLOB" = "string" :=
  (C8_frontend_type_total "BLOB").2 (by decide) (by decide) (by decide) (by decide)
    (by decide) (by decide) (by decide) (by decide) (by decide)

/-- A one-column, one-row table used as a concrete catalog entry. -/
def tblC1 : Table := { columns := [("id", "INTEGER")], rows := [[Value.vInt 1]] }

/-- A session where the default table `csv_data` exists but no other table
does. -/
def stC1 : DBState :=
  { conn := true, tables := [("csv_data", tblC1)], stagedCsv := none,
    table_name := "csv_data", engineLog := [] }

/-- If the broad existence probe fails, `table_exists` reports false and the
queries newly sent to the engine (at most the probe itself) include no
analysis command. -/
theorem probe_fail_state (st : DBState)
    (h : st.conn = false ∨ tableLookup st st.table_name = none) :
    (table_exists st).1 = false ∧
    (((table_exists st).2).engineLog.drop st.engineLog.length).all
      (fun q => !q.isAnalysisQuery) = true := by
  cases hc : st.conn
  · have ht : table_exists st = (false, st) := by
      simp [table_exists, execute_query, hc]
    rw [ht]
    simp [List.drop_length]
  · have h2 : tableLookup st st.table_name = none := by
      rcases h with h | h
      · rw [hc] at h; cases h
      · exact h
    have ht : table_exists st = (false, logQ st (EngineQuery.probe st.table_name)) := by
      simp only [tableLookup] at h2
      simp [table_exists, execute_query, engineRun, logQ, hc, h2]
    rw [ht]
    simp [logQ, List.drop_left, EngineQuery.isAnalysisQuery]

/-- When the existence check comes back false, `_run_analysis_command` raises
`tableNotFound` for its `table_name` argument immediately. -/
theorem run_analysis_of_probe_fail (command name : String) (st : DBState)
    (h : (table_exists st).1 = false) :
    run_analysis_command command name st =
      (Except.error (AnalyzerError.tableNotFound name), (table_exists st).2) := by
  unfold run_analysis_command
  rcases hte : table_exists st with ⟨b, st1⟩
  rw [hte] at h
  simp only at h
  subst h
  rfl

/-- C1 counterexample — the existence check of `_run_analysis_command` probes
the manager's default table, not the `table_name` argument: in a session where
`csv_data` exists but `other` does not, `describe("other")` passes the check
and fails at the engine with an engine-level error, not with
`tableNotFound("other")`. -/
theorem C1_describe_ignores_argument_table :
    tableLookup stC1 "other" = none ∧
    (describe stC1 "other").1 =
      Except.error (AnalyzerError.engineError "Table other does not exist") ∧
    AnalyzerError.engineError "Table other does not exist" ≠
      AnalyzerError.tableNotFound "other" := by
  refine ⟨rfl, rfl, by decide⟩

/-- C1 amended — `describe(t)` and `summarize(t)` gate on the broad existence
probe of the manager's DEFAULT table (`csv_data`), not of `t`: whenever that
probe fails (no connection, or the default table absent) they raise
`TableNotFoundError` naming `t`, and no analysis command is issued to the
engine.  In particular, calling describe on any table name before any table
was created raises `TableNotFoundError` before any analysis command reaches
the engine. -/
theorem C1_analysis_requires_default_table (st : DBState) (name : String)
    (h : st.conn = false ∨ tableLookup st st.table_name = none) :
    (describe st name).1 = Except.error (AnalyzerError.tableNotFound name) ∧
    (summarize st name).1 = Except.error (AnalyzerError.tableNotFound name) ∧
    (((describe st name).2).engineLog.drop st.engineLog.length).all
      (fun q => !q.isAnalysisQuery) = true := by
  obtain ⟨hb, hlog⟩ := probe_fail_state st h
  refine ⟨?_, ?_, ?_⟩
  · simp only [describe, run_analysis_of_probe_fail "DESCRIBE" name st hb]
  · simp only [summarize, run_analysis_of_probe_fail "SUMMARIZE" name st hb]
  · simp only [describe, run_analysis_of_probe_fail "DESCRIBE" name st hb]
    exact hlog

/-- C1 witness — `describe("missing_table")` on the fresh initial state (the
spec's scenario: before any `loadCsv`) raises `tableNotFound` and sends no
analysis command to the engine. -/
theorem C1_analysis_requires_default_table_witness :
    (describe initState "missing_table").1 =
      Except.error (AnalyzerError.tableNotFound "missing_table") ∧
    (summarize initState "missing_table").1 =
      Except.error (AnalyzerError.tableNotFound "missing_table") ∧
    (((describe initState "missing_table").2).engineLog.drop
        initState.engineLog.length).all (fun q => !q.isAnalysisQuery) = true :=
  C1_analysis_requires_default_table initState "missing_table" (Or.inl rfl)

/-- After filtering a name out of the catalog, looking that name up fails. -/
theorem lookupTbl_filter_self (l : List (String × Table)) (name : String) :
    lookupTbl (l.filter (fun p => p.1 != name)) name = none := by
  have hfind : (l.filter (fun p => p.1 != name)).find? (fun p => p.1 == name) = none := by
    rw [List.find?_eq_none]
    intro a ha
    have hp := List.of_mem_filter ha
    simp_all
  simp [lookupTbl, hfind]

/-- Looking up a name in `l ++ l₂` when it is absent from `l` defers to
`l₂`. -/
theorem lookupTbl_append_of_none (l l₂ : List (String × Table)) (name : String)
    (h : lookupTbl l name = none) :
    lookupTbl (l ++ l₂) name = lookupTbl l₂ name := by
  induction l with
  | nil => rfl
  | cons hd tl ih =>
    simp only [lookupTbl, List.find?_cons, List.cons_append] at h ⊢
    simp only [lookupTbl] at ih
    by_cases hb : hd.1 = name
    · simp [hb] at h
    · have hb' : (hd.1 == name) = false := by simp [hb]
      rw [hb'] at h ⊢
      exact ih h

/-- Dropping then recreating a table: the freshly created entry is found. -/
theorem lookupTbl_filter_append (l : List (String × Table)) (name : String) (t : Table) :
    lookupTbl (l.filter (fun p => p.1 != name) ++ [(name, t)]) name = some t := by
  rw [lookupTbl_append_of_none _ _ _ (lookupTbl_filter_self l name)]
  simp [lookupTbl]

/-- `connect` merely forces the connection flag. -/
theorem connect_eq (st : DBState) : connect st = { st with conn := true } := by
  by_cases h : st.conn
  · cases st
    simp_all [connect]
  · simp [connect, h]

/-- Characterization of one `load_csv_from_content` call: the connection is
live, the staged CSV holds exactly the new content, the catalog is the old
catalog minus any table of the target name plus (on parse success) the freshly
created table, and the returned value is the new table's row count (or the
engine's parse error). -/
theorem load_csv_obs (st : DBState) (content tname : String) :
    ((load_csv_from_content st content tname).2).conn = true ∧
    ((load_csv_from_content st content tname).2).tables =
      st.tables.filter (fun p => p.1 != tname) ++
        (match parseCsv content with
         | some t => [(tname, t)]
         | none => []) ∧
    ((load_csv_from_content st content tname).2).stagedCsv = some content ∧
    ((load_csv_from_content st content tname).2).table_name = st.table_name ∧
    (load_csv_from_content st content tname).1 =
      (match parseCsv content with
       | some t => Except.ok t.rows.length
       | none => Except.error (AnalyzerError.engineError "csv parse failure")) := by
  rcases hp : parseCsv content with _ | t
  · simp [load_csv_from_content, connect_eq, execute_query, engineRun, logQ, hp,
      lookupTbl_filter_self]
  · simp [load_csv_from_content, connect_eq, execute_query, engineRun, logQ, hp,
      lookupTbl_filter_self, lookupTbl_filter_append, fetchCount]

/-- C5 — re-ingestion is destructive and last-write-wins: for any prior state,
`loadCsv(c1); loadCsv(c2)` and `loadCsv(c2)` alone produce the same observable
session state (connection, catalog — hence the target table's schema and row
count — and staged CSV) and the same returned row count; nothing of `c1`
accumulates. -/
theorem C5_load_csv_last_write_wins (st : DBState) (c1 c2 tname : String) :
    ((load_csv_from_content (load_csv_from_content st c1 tname).2 c2 tname).2).obs =
      ((load_csv_from_content st c2 tname).2).obs ∧
    (load_csv_from_content (load_csv_from_content st c1 tname).2 c2 tname).1 =
      (load_csv_from_content st c2 tname).1 := by
  obtain ⟨-, h1tab, -, h1name, -⟩ := load_csv_obs st c1 tname
  obtain ⟨h2conn, h2tab, h2staged, h2name, h2res⟩ :=
    load_csv_obs (load_csv_from_content st c1 tname).2 c2 tname
  obtain ⟨h3conn, h3tab, h3staged, h3name, h3res⟩ := load_csv_obs st c2 tname
  refine ⟨?_, h2res.trans h3res.symm⟩
  simp only [DBState.obs, ObsState.mk.injEq]
  refine ⟨by rw [h2conn, h3conn], ?_, by rw [h2staged, h3staged],
    by rw [h2name, h3name, h1name]⟩
  rw [h2tab, h3tab, h1tab, List.filter_append, List.filter_filter]
  rcases parseCsv c1 with _ | t <;> simp
